import Mathlib

/-!
Shallow embedding of the process-control core of `rdbg`, a small ptrace-based
debugger for x86-64 Linux, together with proofs about its behaviour.

The embedding follows `src/core/process.rs`, `src/core/pipe.rs` and
`src/core/command.rs`. OS effects (fork, ptrace, waitpid, kill, close) are
modelled by an explicit oracle structure `Os` describing how each OS call
would respond, and every operation returns the list of OS calls it issued,
so that claims about which calls are (or are not) made can be stated
directly. Machine integers (`c_int`, `pid_t`) are modelled as `Int`; a raw
wait status word is modelled by its 32-bit pattern as a `Nat`.
-/

namespace Rdbg

/-- Lifecycle state of a tracee, from `ProcessState` in `src/core/process.rs`. -/
inductive ProcessState
  | Stopped
  | Running
  | Exited
  | Terminated
  deriving DecidableEq, Repr

/-- Why a process stopped, from `StopReason` in `src/core/process.rs`:
a lifecycle state together with an info code (exit code or signal number). -/
structure StopReason where
  reason : ProcessState
  info : Int
  deriving DecidableEq, Repr

/-! ### Wait-status macros

The source calls the `libc` crate's Linux wait-status predicates
(`WIFEXITED`, `WIFSIGNALED`, `WIFSTOPPED`, `WEXITSTATUS`, `WTERMSIG`,
`WSTOPSIG`). They are bit tests on the status word; here the status word is
the 32-bit pattern as a `Nat`, and `& 0x7f`, `& 0xff`, `>> 8` become
`% 128`, `% 256`, `/ 256`. -/

/-- Reinterpret the low byte of `n` as a signed 8-bit value (the `as i8`
cast in the `libc` crate's `WIFSIGNALED`). -/
def asI8 (n : Nat) : Int :=
  if n % 256 < 128 then ((n % 256 : Nat) : Int) else ((n % 256 : Nat) : Int) - 256

/-- Linux `WIFEXITED(status)`: `(status & 0x7f) == 0`. -/
def WIFEXITED (s : Nat) : Bool := s % 128 == 0

/-- Linux `WEXITSTATUS(status)`: `(status >> 8) & 0xff`. -/
def WEXITSTATUS (s : Nat) : Nat := (s / 256) % 256

/-- Linux `WIFSIGNALED(status)`: `((status & 0x7f) + 1) as i8 >= 2`. -/
def WIFSIGNALED (s : Nat) : Bool := decide (2 ≤ asI8 (s % 128 + 1))

/-- Linux `WTERMSIG(status)`: `status & 0x7f`. -/
def WTERMSIG (s : Nat) : Nat := s % 128

/-- Linux `WIFSTOPPED(status)`: `(status & 0xff) == 0x7f`. -/
def WIFSTOPPED (s : Nat) : Bool := s % 256 == 127

/-- Linux `WSTOPSIG(status)`: same computation as `WEXITSTATUS`. -/
def WSTOPSIG (s : Nat) : Nat := (s / 256) % 256

/-- The stop-reason decoder `StopReason::new` from `src/core/process.rs`:
classify a raw wait status into a lifecycle state plus info code, falling
back to `(Stopped, -1)` (after logging a diagnostic) when no predicate
matches. -/
def StopReason.new (wait_status : Nat) : StopReason :=
  if WIFEXITED wait_status then
    ⟨.Exited, (WEXITSTATUS wait_status : Int)⟩
  else if WIFSIGNALED wait_status then
    ⟨.Terminated, (WTERMSIG wait_status : Int)⟩
  else if WIFSTOPPED wait_status then
    ⟨.Stopped, (WSTOPSIG wait_status : Int)⟩
  else
    ⟨.Stopped, -1⟩

/-- Shape of the one-line report printed by `StopReason::log_stop_reason`.
The signal-name lookup via `strsignal` is abstracted away: the report form
carries the pid and the raw info code that select the printed line. -/
inductive Report
  | exitedWithStatus (pid : Int) (code : Int)
  | terminatedWithSignal (pid : Int) (signal : Int)
  | stoppedWithSignal (pid : Int) (signal : Int)
  | invalidReason
  deriving DecidableEq, Repr

/-- The reporting function `StopReason::log_stop_reason` from
`src/core/process.rs`, as the report form it prints for a process with the
given pid; the wildcard match arm (reached only for `Running`) logs an
invalid-reason diagnostic instead of printing a report. -/
def StopReason.log_stop_reason (r : StopReason) (pid : Int) : Report :=
  match r.reason with
  | .Exited => .exitedWithStatus pid r.info
  | .Terminated => .terminatedWithSignal pid r.info
  | .Stopped => .stoppedWithSignal pid r.info
  | .Running => .invalidReason

/-! ### Claims about the stop-reason decoder -/

/-- C4: the stop-reason decoder is a total function on raw wait-status
words: an exited status maps to `(Exited, exit code)`, a signalled status
to `(Terminated, signal)`, a stopped status to `(Stopped, stop signal)`,
and every remaining status to the sentinel `(Stopped, -1)`; being a total
Lean function it can never panic or abort. -/
theorem stopreason_new_total (s : Nat) :
    (WIFEXITED s = true → StopReason.new s = ⟨.Exited, (WEXITSTATUS s : Int)⟩) ∧
    (WIFEXITED s = false → WIFSIGNALED s = true →
      StopReason.new s = ⟨.Terminated, (WTERMSIG s : Int)⟩) ∧
    (WIFEXITED s = false → WIFSIGNALED s = false → WIFSTOPPED s = true →
      StopReason.new s = ⟨.Stopped, (WSTOPSIG s : Int)⟩) ∧
    (WIFEXITED s = false → WIFSIGNALED s = false → WIFSTOPPED s = false →
      StopReason.new s = ⟨.Stopped, -1⟩) := by
  refine ⟨fun h1 => ?_, fun h1 h2 => ?_, fun h1 h2 h3 => ?_, fun h1 h2 h3 => ?_⟩ <;>
    simp [StopReason.new, h1] <;> simp [h2] <;> simp [h3]

/-- Witness for C4: the decoder applied to the concrete exited status `0`. -/
theorem stopreason_new_total_witness :
    StopReason.new 0 = ⟨.Exited, 0⟩ :=
  (stopreason_new_total 0).1 rfl

/-- C10: the decoder never produces the `Running` state, so the
invalid-reason arm of `log_stop_reason` is unreachable for decoder-produced
stop reasons, and the report is always one of the three real forms. -/
theorem stopreason_report_never_invalid (s : Nat) (pid : Int) :
    (StopReason.new s).reason ≠ ProcessState.Running ∧
    (StopReason.new s).log_stop_reason pid ≠ Report.invalidReason ∧
    ((StopReason.new s).log_stop_reason pid =
        Report.exitedWithStatus pid (StopReason.new s).info ∨
      (StopReason.new s).log_stop_reason pid =
        Report.terminatedWithSignal pid (StopReason.new s).info ∨
      (StopReason.new s).log_stop_reason pid =
        Report.stoppedWithSignal pid (StopReason.new s).info) := by
  unfold StopReason.new
  split <;> [skip; split] <;> [skip; skip; split] <;>
    simp [StopReason.log_stop_reason]

/-! ### The process controller

`Process` mirrors the struct in `src/core/process.rs`. OS calls are
represented by `OsCall` values; an `Os` oracle fixes how each call would
respond, and each operation returns the calls it issued in order. -/

/-- Typed errors. The source uses boxed string errors built with the
`errno!` macro; each constructor stands for one distinct error message,
carrying the data interpolated into that message. -/
inductive RdbgError
  | pipeCreateFailed
  | forkFailed
  | readFailed
  | attachFailed (pid : Int)
  | resumeFailed
  | waitFailed
  | childSetup (msg : String)
  | unrecognizedCommand (token : String)
  deriving DecidableEq, Repr

/-- OS calls the controller can issue. -/
inductive OsCall
  | fork
  | ptraceAttach (pid : Int)
  | ptraceCont (pid : Int)
  | ptraceDetach (pid : Int)
  | waitpid (pid : Int)
  | kill (pid : Int) (signal : Int)
  deriving DecidableEq, Repr

/-- Linux signal number for SIGKILL. -/
def SIGKILL : Int := 9
/-- Linux signal number for SIGSTOP. -/
def SIGSTOP : Int := 19
/-- Linux signal number for SIGCONT. -/
def SIGCONT : Int := 18

/-- Oracle describing how the OS responds to each call the controller can
make during one operation: whether `PTRACE_ATTACH` / `PTRACE_CONT` /
`waitpid` succeed for a given pid, the raw status `waitpid` fills in,
whether pipe creation, `fork` and the parent-side pipe read succeed, and
the error message (if any) the forked child wrote into the error channel
before the parent read it. -/
structure Os where
  attachOk : Int → Bool
  contOk : Int → Bool
  waitOk : Int → Bool
  waitStatus : Int → Nat
  pipeOk : Bool
  forkResult : Option Int
  readOk : Bool
  childMsg : Option String

/-- The tracee handle, from `struct Process` in `src/core/process.rs`. -/
structure Process where
  pid : Int
  terminate : Bool
  state : ProcessState
  is_attached : Bool
  deriving DecidableEq, Repr

/-- Result of an operation on `&mut self`: the updated handle (unchanged
when the operation returned early with an error), the returned value or
error, and the OS calls issued. -/
structure Step (α : Type) where
  self : Process
  out : Except RdbgError α
  calls : List OsCall
  deriving Repr

/-- `Process::resume` from `src/core/process.rs`: issue `PTRACE_CONT`; on
failure return a resume error leaving the handle untouched; on success set
the state to `Running`. -/
def Process.resume (p : Process) (os : Os) : Step Unit :=
  if os.contOk p.pid then
    ⟨{ p with state := .Running }, .ok (), [.ptraceCont p.pid]⟩
  else
    ⟨p, .error .resumeFailed, [.ptraceCont p.pid]⟩

/-- `Process::wait_on_signal` from `src/core/process.rs`: issue `waitpid`;
on failure return a wait error leaving the handle untouched; on success
decode the status with `StopReason::new`, set the state to the decoded
reason and return the reason. -/
def Process.wait_on_signal (p : Process) (os : Os) : Step StopReason :=
  if os.waitOk p.pid then
    let reason := StopReason.new (os.waitStatus p.pid)
    ⟨{ p with state := reason.reason }, .ok reason, [.waitpid p.pid]⟩
  else
    ⟨p, .error .waitFailed, [.waitpid p.pid]⟩

/-- The `Drop` implementation for `Process` in `src/core/process.rs`, as
the list of OS calls teardown issues: nothing when `pid == 0`; when
`is_attached`, first stop-and-wait if currently `Running`, then
`PTRACE_DETACH` and `SIGCONT`; finally, when `terminate` is set,
`SIGKILL` followed by a reaping `waitpid`. -/
def Process.drop (p : Process) : List OsCall :=
  if p.pid ≠ 0 then
    (if p.is_attached then
      (if p.state = .Running then [.kill p.pid SIGSTOP, .waitpid p.pid] else [])
        ++ [.ptraceDetach p.pid, .kill p.pid SIGCONT]
    else [])
      ++ (if p.terminate then [.kill p.pid SIGKILL, .waitpid p.pid] else [])
  else []

/-- `Process::attach` from `src/core/process.rs`: issue `PTRACE_ATTACH` for
the given pid (there is no pre-check of the pid value); on failure return
an attach error; on success build the handle with `terminate := true`,
`state := Stopped`, `is_attached := true` and run one `wait_on_signal`.
When that wait fails, the `?` early return drops the just-constructed
handle, so the `Drop` teardown calls (detach, SIGCONT, SIGKILL, reaping
wait — see `Process.drop`) are issued during `attach` and appear in the
returned trace. -/
def Process.attach (pid : Int) (os : Os) : Except RdbgError Process × List OsCall :=
  if os.attachOk pid then
    let proc : Process := ⟨pid, true, .Stopped, true⟩
    let s := proc.wait_on_signal os
    match s.out with
    | .ok _ => (.ok s.self, .ptraceAttach pid :: s.calls)
    | .error e => (.error e, .ptraceAttach pid :: (s.calls ++ Process.drop s.self))
  else
    (.error (.attachFailed pid), [.ptraceAttach pid])

/-- `Process::launch` from `src/core/process.rs`, parent side. The child
branch (close read end, optional `PTRACE_TRACEME`, `execlp`, writing an
error message on failure) is summarised by the oracle's `childMsg`: `none`
when the exec succeeded and close-on-exec delivered zero bytes, `some msg`
when the child wrote `msg` into the error channel. The parent creates the
pipe, forks, closes the write end, blocks reading the channel; if bytes
arrived it reaps the child with `waitpid` and returns the message as a
setup failure; otherwise it builds the handle with `terminate := true`,
`state := Stopped`, `is_attached := debug`, and when `debug` is true runs
one `wait_on_signal` to consume the trace stop. When that wait fails, the
`?` early return drops the just-constructed handle, so the `Drop`
teardown calls (detach, SIGCONT, SIGKILL, reaping wait — see
`Process.drop`) are issued during `launch` and appear in the returned
trace. -/
def Process.launch (tracee_path : String) (debug : Bool) (os : Os) :
    Except RdbgError Process × List OsCall :=
  if os.pipeOk then
    match os.forkResult with
    | none => (.error .forkFailed, [.fork])
    | some pid =>
      if os.readOk then
        match os.childMsg with
        | some msg =>
          if os.waitOk pid then
            (.error (.childSetup msg), [.fork, .waitpid pid])
          else
            (.error .waitFailed, [.fork, .waitpid pid])
        | none =>
          let proc : Process := ⟨pid, true, .Stopped, debug⟩
          if debug then
            let s := proc.wait_on_signal os
            match s.out with
            | .ok _ => (.ok s.self, .fork :: s.calls)
            | .error e => (.error e, .fork :: (s.calls ++ Process.drop s.self))
          else
            (.ok proc, [.fork])
      else
        (.error .readFailed, [.fork])
  else
    (.error .pipeCreateFailed, [])

/-- Number of blocking `waitpid` calls in a call trace. -/
def countWaits : List OsCall → Nat
  | [] => 0
  | .waitpid _ :: rest => countWaits rest + 1
  | .fork :: rest => countWaits rest
  | .ptraceAttach _ :: rest => countWaits rest
  | .ptraceCont _ :: rest => countWaits rest
  | .ptraceDetach _ :: rest => countWaits rest
  | .kill _ _ :: rest => countWaits rest

/-! ### The command dispatcher -/

/-- The first token of `input.split(' ')` in `src/core/command.rs`: the
characters of the input up to (not including) the first space. On empty
input this is the empty token, exactly as the iterator's first element. -/
def firstToken (s : String) : String :=
  String.mk (s.data.takeWhile (fun c => c != ' '))

/-- Rust `s.starts_with(pre)`: `pre` is a prefix of `s`, over the
characters of the two strings. -/
def startsWithStr (s pre : String) : Bool :=
  pre.data.isPrefixOf s.data

/-- `handle_command` from `src/core/command.rs`: split the input on the
space character, take the first token (empty string when there is none),
and if `"continue"` starts with that token run the continue action —
`resume`, then `wait_on_signal`, then `log_stop_reason` — propagating any
error unchanged; otherwise fail with an unrecognized-command error carrying
the token. The Rust function prints the report and returns `Ok(())`; here
the printed report form is returned in the `ok` case. -/
def handle_command (proc : Process) (input : String) (os : Os) :
    Process × Except RdbgError Report :=
  let command := firstToken input
  if startsWithStr "continue" command then
    let s1 := proc.resume os
    match s1.out with
    | .error e => (s1.self, .error e)
    | .ok _ =>
      let s2 := s1.self.wait_on_signal os
      match s2.out with
      | .error e => (s2.self, .error e)
      | .ok reason => (s2.self, .ok (reason.log_stop_reason s2.self.pid))
  else
    (proc, .error (.unrecognizedCommand command))

/-! ### The error channel (pipe) -/

/-- `struct Pipe` from `src/core/pipe.rs`. In the source `read_fd` and
`write_fd` hold the constant indices 0 and 1 into the two-element `fds`
array filled by `pipe2`; here they are `Fin 2` indices and `fds` the
array. A descriptor value of `-1` is the already-closed sentinel. -/
structure Pipe where
  read_fd : Fin 2
  write_fd : Fin 2
  fds : Fin 2 → Int

/-- Overwrite one slot of the descriptor array (the `mem::replace` in
`Pipe::release_read` / `Pipe::release_write`). -/
def setFd (fds : Fin 2 → Int) (i : Fin 2) (v : Int) : Fin 2 → Int :=
  fun j => if j = i then v else fds j

/-- `Pipe::close_read` from `src/core/pipe.rs`: when the read-end slot is
not the sentinel, issue `close` on it and set the slot to `-1`; otherwise
do nothing. Returns the updated pipe and the descriptors actually passed
to `close`. The function cannot fail. -/
def Pipe.close_read (p : Pipe) : Pipe × List Int :=
  if p.fds p.read_fd ≠ -1 then
    ({ p with fds := setFd p.fds p.read_fd (-1) }, [p.fds p.read_fd])
  else
    (p, [])

/-- `Pipe::close_write` from `src/core/pipe.rs`: same as `close_read` for
the write-end slot. -/
def Pipe.close_write (p : Pipe) : Pipe × List Int :=
  if p.fds p.write_fd ≠ -1 then
    ({ p with fds := setFd p.fds p.write_fd (-1) }, [p.fds p.write_fd])
  else
    (p, [])

/-- The `Drop` implementation for `Pipe` in `src/core/pipe.rs`:
`close_read` followed by `close_write`, collecting the `close` calls. -/
def Pipe.drop (p : Pipe) : Pipe × List Int :=
  let r := p.close_read
  let w := r.1.close_write
  (w.1, r.2 ++ w.2)

/-! ### Decidable equality on `Except` results -/

/-- Decidable equality for `Except`, so concrete runs of the operations can
be settled by `decide`. -/
instance instDecEqExcept {ε α : Type} [DecidableEq ε] [DecidableEq α] :
    DecidableEq (Except ε α)
  | .ok a, .ok b =>
    if h : a = b then .isTrue (by rw [h]) else .isFalse (by simp [h])
  | .ok _, .error _ => .isFalse (by simp)
  | .error _, .ok _ => .isFalse (by simp)
  | .error e, .error f =>
    if h : e = f then .isTrue (by rw [h]) else .isFalse (by simp [h])

/-! ### Concrete fixtures

Small concrete oracles and handles used to instantiate the theorems. The
status word `0x137f` is a genuine trace-stop status: low byte `0x7f`
(stopped) with stop signal `0x13 = 19 = SIGSTOP` in the next byte. -/

/-- Oracle on which every OS call succeeds and every wait reports a
SIGSTOP trace-stop; the forked child execs successfully (no channel
bytes). -/
def osAllOk : Os :=
  ⟨fun _ => true, fun _ => true, fun _ => true, fun _ => 0x137f,
   true, some 7, true, none⟩

/-- Oracle on which the forked child reports the setup failure "boom"
through the error channel; all waits succeed. -/
def osChildErr : Os :=
  ⟨fun _ => true, fun _ => true, fun _ => true, fun _ => 0x137f,
   true, some 7, true, some "boom"⟩

/-- Oracle on which the launch handshake succeeds with zero bytes but
every `waitpid` fails, driving the post-handshake wait of a traced launch
into its failure path. -/
def osWaitFail : Os :=
  ⟨fun _ => true, fun _ => true, fun _ => false, fun _ => 0,
   true, some 7, true, none⟩

/-- Oracle on which every ptrace and wait call fails (as for a pid with no
live tracee behind it). -/
def osDead : Os :=
  ⟨fun _ => false, fun _ => false, fun _ => false, fun _ => 0,
   true, none, true, none⟩

/-- A stopped, attached tracee handle with pid 42. -/
def procStopped : Process := ⟨42, true, .Stopped, true⟩

/-- An exited tracee handle with pid 42. -/
def procExited : Process := ⟨42, true, .Exited, true⟩

/-! ### C1 — command dispatch -/

/-- C1 counterexample: on empty input the first token is the empty string,
and since every string starts with the empty string, the dispatcher runs
the continue action (here: to completion, reporting a SIGSTOP stop) rather
than failing with an unrecognized-command error carrying `""` as the claim
states. -/
theorem dispatch_empty_token_runs_continue :
    (handle_command procStopped "" osAllOk).2 = .ok (.stoppedWithSignal 42 19) ∧
    (handle_command procStopped "" osAllOk).2 ≠ .error (.unrecognizedCommand "") := by
  exact ⟨rfl, by decide⟩

/-- C1 amended: the dispatcher takes the first space-delimited token and,
when the token is a prefix of the single known command `"continue"` — the
empty token included, since the empty string is a prefix of every string —
runs the continue action (resume, then wait, then report), propagating its
errors unchanged; for any token that is not a prefix of `"continue"` it
fails with an unrecognized-command error carrying exactly that token. -/
theorem dispatch_prefix_match (proc : Process) (input : String) (os : Os)
    (command : String) (hcmd : command = firstToken input) :
    (startsWithStr "continue" command = false →
      handle_command proc input os = (proc, .error (.unrecognizedCommand command))) ∧
    (startsWithStr "continue" command = true → os.contOk proc.pid = false →
      handle_command proc input os = (proc, .error .resumeFailed)) ∧
    (startsWithStr "continue" command = true → os.contOk proc.pid = true →
      os.waitOk proc.pid = false →
      handle_command proc input os =
        ({ proc with state := .Running }, .error .waitFailed)) ∧
    (startsWithStr "continue" command = true → os.contOk proc.pid = true →
      os.waitOk proc.pid = true →
      handle_command proc input os =
        ({ proc with state := (StopReason.new (os.waitStatus proc.pid)).reason },
         .ok ((StopReason.new (os.waitStatus proc.pid)).log_stop_reason proc.pid))) := by
  subst hcmd
  refine ⟨fun h1 => ?_, fun h1 h2 => ?_, fun h1 h2 h3 => ?_, fun h1 h2 h3 => ?_⟩
  · simp [handle_command, h1]
  · simp [handle_command, Process.resume, h1, h2]
  · simp [handle_command, Process.resume, Process.wait_on_signal, h1, h2, h3]
  · simp [handle_command, Process.resume, Process.wait_on_signal, h1, h2, h3]

/-- Witness for C1: the amended theorem instantiated on the input
`"bogus arg"`, whose first token `"bogus"` is not a prefix of
`"continue"`. -/
theorem dispatch_prefix_match_witness :
    handle_command procStopped "bogus arg" osAllOk =
      (procStopped, .error (.unrecognizedCommand "bogus")) :=
  (dispatch_prefix_match procStopped "bogus arg" osAllOk "bogus" (by decide)).1
    (by decide)

/-! ### C2 — attach on nonpositive pids -/

/-- Kernel-side guarantee about `PTRACE_ATTACH`: the pid argument must name
an existing process other than the caller, and pid 0 and negative values
never do (they denote process groups in other interfaces and are not valid
attach targets), so the attach call fails for every nonpositive pid. The
repository's own test `process_attach_invalid_pid` relies on this for
pid 0. -/
def Os.Valid (os : Os) : Prop :=
  ∀ pid : Int, pid ≤ 0 → os.attachOk pid = false

/-- C2 counterexample: `attach(0)` does fail, but only by issuing the
`PTRACE_ATTACH` OS call and having it fail — the call trace is nonempty,
refuting the claim that the rejection happens before any OS call. -/
theorem attach_zero_makes_os_call :
    (Process.attach 0 osDead).2 = [.ptraceAttach 0] ∧
    (Process.attach 0 osDead).2 ≠ [] ∧
    (Process.attach 0 osDead).1 = .error (.attachFailed 0) := by
  refine ⟨rfl, by decide, rfl⟩

/-- C2 amended: for every pid that is 0 or negative, `attach(pid)` fails —
not through a pre-check, but because the `PTRACE_ATTACH` call it
unconditionally issues fails for such pids; that failing attach call is
the only OS call made, so the tracee-side effect the claim is concerned
with (stopping some process) indeed never happens. -/
theorem attach_nonpositive_fails (os : Os) (pid : Int)
    (hos : os.Valid) (hpid : pid ≤ 0) :
    (Process.attach pid os).1 = .error (.attachFailed pid) ∧
    (Process.attach pid os).2 = [.ptraceAttach pid] := by
  have h := hos pid hpid
  constructor <;> simp [Process.attach, h]

/-- Witness for C2: the amended theorem applied to the dead oracle at
pid 0. -/
theorem attach_nonpositive_fails_witness :
    (Process.attach 0 osDead).1 = .error (.attachFailed 0) ∧
    (Process.attach 0 osDead).2 = [.ptraceAttach 0] :=
  attach_nonpositive_fails osDead 0 (fun _ _ => rfl) (by decide)

/-! ### C3 — teardown of an attach-created controller -/

/-- C3: contrary to the claim (and to the source's own doc comments on the
`terminate` field and on `Drop`, which say the kill-and-reap step is for
controllers created through `Process::launch`), `Process::attach` also
constructs the handle with `terminate = true`, so dropping a controller
that merely attached to pid 42 detaches and then sends SIGKILL and reaps
the tracee. -/
theorem attach_teardown_sends_sigkill :
    (Process.attach 42 osAllOk).1 =
      .ok ⟨42, true, ProcessState.Stopped, true⟩ ∧
    (⟨42, true, ProcessState.Stopped, true⟩ : Process).terminate = true ∧
    Process.drop ⟨42, true, ProcessState.Stopped, true⟩ =
      [.ptraceDetach 42, .kill 42 SIGCONT, .kill 42 SIGKILL, .waitpid 42] ∧
    OsCall.kill 42 SIGKILL ∈ Process.drop ⟨42, true, ProcessState.Stopped, true⟩ := by
  refine ⟨by decide, rfl, by decide, by decide⟩

/-! ### C5 — pipe close idempotence -/

/-- After `close_read` the read-end slot always holds the sentinel. -/
theorem Pipe.close_read_fds (p : Pipe) : p.close_read.1.fds p.read_fd = -1 := by
  by_cases h : p.fds p.read_fd = -1 <;> simp [Pipe.close_read, h, setFd]

/-- After `close_write` the write-end slot always holds the sentinel. -/
theorem Pipe.close_write_fds (p : Pipe) : p.close_write.1.fds p.write_fd = -1 := by
  by_cases h : p.fds p.write_fd = -1 <;> simp [Pipe.close_write, h, setFd]

/-- Closing an already-closed read end is a no-op. -/
theorem Pipe.close_read_noop (p : Pipe) (h : p.fds p.read_fd = -1) :
    p.close_read = (p, []) := by
  simp [Pipe.close_read, h]

/-- Closing an already-closed write end is a no-op. -/
theorem Pipe.close_write_noop (p : Pipe) (h : p.fds p.write_fd = -1) :
    p.close_write = (p, []) := by
  simp [Pipe.close_write, h]

/-- `close_write` never reopens a closed read end. -/
theorem Pipe.close_write_keeps_read (p : Pipe) (h : p.fds p.read_fd = -1) :
    p.close_write.1.fds p.read_fd = -1 := by
  by_cases hw : p.fds p.write_fd = -1
  · simp [Pipe.close_write, hw, h]
  · by_cases he : p.read_fd = p.write_fd <;>
      simp [Pipe.close_write, hw, setFd, he, h]

/-- The close operations never change the endpoint indices. -/
theorem Pipe.close_idx (p : Pipe) :
    (p.close_read.1.read_fd = p.read_fd ∧ p.close_read.1.write_fd = p.write_fd) ∧
    (p.close_write.1.read_fd = p.read_fd ∧ p.close_write.1.write_fd = p.write_fd) := by
  constructor
  · by_cases h : p.fds p.read_fd = -1 <;> simp [Pipe.close_read, h]
  · by_cases h : p.fds p.write_fd = -1 <;> simp [Pipe.close_write, h]

/-- C5: `close_read` and `close_write` are idempotent — a second close of
the same endpoint issues no `close` call, closing an already-closed
endpoint is a no-op (and no close ever errors: the operations cannot
fail), the first close leaves the sentinel `-1` in that endpoint's slot,
and teardown (`drop`) force-closes both ends with the same guarantee, so
a teardown after a teardown issues no `close` call at all. -/
theorem pipe_close_idempotent (p : Pipe) :
    (p.close_read.1.close_read.2 = [] ∧ p.close_write.1.close_write.2 = []) ∧
    (p.close_read.1.fds p.read_fd = -1 ∧ p.close_write.1.fds p.write_fd = -1) ∧
    (p.fds p.read_fd = -1 → p.close_read = (p, [])) ∧
    (p.fds p.write_fd = -1 → p.close_write = (p, [])) ∧
    (p.drop.1.fds p.read_fd = -1 ∧ p.drop.1.fds p.write_fd = -1) ∧
    p.drop.1.drop.2 = [] := by
  have hr := Pipe.close_read_fds p
  have hw := Pipe.close_write_fds p
  have hidxr := (Pipe.close_idx p).1
  have hidxw := (Pipe.close_idx (p.close_read.1)).2
  have hdrop : p.drop.1 = (p.close_read.1.close_write).1 := rfl
  have hdr : p.drop.1.fds p.read_fd = -1 := by
    rw [hdrop]
    have h := Pipe.close_write_keeps_read (p.close_read.1) (by rw [hidxr.1]; exact hr)
    rwa [hidxr.1] at h
  have hdw : p.drop.1.fds p.write_fd = -1 := by
    rw [hdrop]
    have h := Pipe.close_write_fds (p.close_read.1)
    rwa [hidxr.2] at h
  have hdidx : p.drop.1.read_fd = p.read_fd ∧ p.drop.1.write_fd = p.write_fd := by
    rw [hdrop]
    exact ⟨by rw [hidxw.1, hidxr.1], by rw [hidxw.2, hidxr.2]⟩
  refine ⟨⟨?_, ?_⟩, ⟨hr, hw⟩, Pipe.close_read_noop p, Pipe.close_write_noop p,
    ⟨hdr, hdw⟩, ?_⟩
  · have h2 := Pipe.close_read_noop (p.close_read.1) (by rw [hidxr.1]; exact hr)
    rw [h2]
  · have h2 := Pipe.close_write_noop (p.close_write.1)
      (by rw [((Pipe.close_idx p).2).2]; exact hw)
    rw [h2]
  · have h1 : p.drop.1.close_read = (p.drop.1, []) :=
      Pipe.close_read_noop _ (by rw [hdidx.1]; exact hdr)
    have h2 : p.drop.1.close_write = (p.drop.1, []) :=
      Pipe.close_write_noop _ (by rw [hdidx.2]; exact hdw)
    show (p.drop.1.close_read.2 ++ (p.drop.1.close_read.1.close_write).2) = []
    rw [h1, h2]
    rfl

/-- Witness for C5: the idempotence theorem applied to a concrete pipe
whose read end is already closed. -/
theorem pipe_close_idempotent_witness :
    Pipe.close_read ⟨0, 1, fun i => if i = 0 then -1 else 5⟩ =
      (⟨0, 1, fun i => if i = 0 then -1 else 5⟩, []) :=
  (pipe_close_idempotent ⟨0, 1, fun i => if i = 0 then -1 else 5⟩).2.2.1 (by decide)

/-! ### C6 — waits performed during launch -/

/-- C6 counterexample: with trace disabled, a launch whose child reports a
setup failure through the error channel does perform a blocking wait (the
reap of the failed child), refuting the claim that no wait ever occurs
when `trace` is false. -/
theorem launch_untraced_failure_waits :
    countWaits (Process.launch "target" false osChildErr).2 = 1 ∧
    (Process.launch "target" false osChildErr).1 = .error (.childSetup "boom") :=
  ⟨rfl, rfl⟩

/-- C6 amended: after a zero-byte channel handshake, launch performs
exactly one blocking wait when `trace` is true and that post-handshake
wait succeeds (consuming the automatic trace-stop), and no wait at all
when `trace` is false — the caller then receiving a handle to a
possibly-already-running process; when `trace` is true but the
post-handshake wait fails, the early return drops the just-constructed
handle and its teardown issues a second, reaping wait, for two waits in
all; and when the child wrote a message, exactly one blocking wait — the
reap of the failed child — occurs regardless of `trace`. -/
theorem launch_wait_count (path : String) (debug : Bool) (os : Os) (pid : Int)
    (hp : os.pipeOk = true) (hf : os.forkResult = some pid) (hr : os.readOk = true) :
    (os.childMsg = none → os.waitOk pid = true →
      countWaits (Process.launch path debug os).2 = if debug then 1 else 0) ∧
    (os.childMsg = none → debug = false →
      countWaits (Process.launch path debug os).2 = 0) ∧
    (os.childMsg = none → debug = true → os.waitOk pid = false → pid ≠ 0 →
      countWaits (Process.launch path debug os).2 = 2) ∧
    (∀ m, os.childMsg = some m →
      countWaits (Process.launch path debug os).2 = 1) := by
  refine ⟨fun hm hw => ?_, fun hm hd => ?_, fun hm hd hw hpid => ?_, fun m hm => ?_⟩
  · cases debug <;>
      simp [Process.launch, Process.wait_on_signal, countWaits, hp, hf, hr, hm, hw]
  · subst hd
    simp [Process.launch, countWaits, hp, hf, hr, hm]
  · subst hd
    simp [Process.launch, Process.wait_on_signal, Process.drop, countWaits,
      hp, hf, hr, hm, hw, hpid]
  · by_cases hw : os.waitOk pid = true <;>
      simp [Process.launch, countWaits, hp, hf, hr, hm, hw]

/-- Witness for C6: a traced launch on the all-ok oracle performs exactly
one wait, and a traced launch whose post-handshake wait fails performs
that failed wait plus the teardown reap, two in all. -/
theorem launch_wait_count_witness :
    countWaits (Process.launch "target" true osAllOk).2 = 1 ∧
    countWaits (Process.launch "target" true osWaitFail).2 = 2 :=
  ⟨(launch_wait_count "target" true osAllOk 7 rfl rfl rfl).1 rfl rfl,
   (launch_wait_count "target" true osWaitFail 7 rfl rfl rfl).2.2.1 rfl rfl rfl
     (by decide)⟩

/-! ### C7 — error atomicity of the launch failure path -/

/-- C7: when the parent's blocking read on the error channel returns a
positive byte count, launch reaps the child with a `waitpid` call and
fails — no controller handle is ever produced — and whenever that reaping
wait itself succeeds, the returned failure carries exactly the message
received from the child. -/
theorem launch_child_error_atomic (path : String) (debug : Bool) (os : Os)
    (pid : Int) (m : String) (hp : os.pipeOk = true) (hf : os.forkResult = some pid)
    (hr : os.readOk = true) (hm : os.childMsg = some m) :
    (Process.launch path debug os).1.toOption = none ∧
    OsCall.waitpid pid ∈ (Process.launch path debug os).2 ∧
    (os.waitOk pid = true →
      (Process.launch path debug os).1 = .error (.childSetup m)) := by
  by_cases hw : os.waitOk pid = true <;>
    simp [Process.launch, hp, hf, hr, hm, hw, Except.toOption]

/-- Witness for C7: the failure-path theorem applied to the oracle whose
child reports "boom". -/
theorem launch_child_error_atomic_witness :
    (Process.launch "target" true osChildErr).1.toOption = none ∧
    OsCall.waitpid 7 ∈ (Process.launch "target" true osChildErr).2 ∧
    (osChildErr.waitOk 7 = true →
      (Process.launch "target" true osChildErr).1 = .error (.childSetup "boom")) :=
  launch_child_error_atomic "target" true osChildErr 7 "boom" rfl rfl rfl rfl

/-! ### C8 — resume and the lifecycle state -/

/-- Consistency of an oracle with a controller in a terminal lifecycle
state: once the tracee has exited or been killed and its status has been
reaped, there is no tracee in ptrace-stop behind the pid any more, so the
`PTRACE_CONT` request fails (ESRCH). The repository's own test
`process_resume_invalid` relies on exactly this failure. -/
def Os.terminalConsistent (os : Os) (p : Process) : Prop :=
  (p.state = .Exited ∨ p.state = .Terminated) → os.contOk p.pid = false

/-- C8: on an oracle consistent with the controller's terminal state,
`resume` called in a terminal state (`Exited` or `Terminated`) always
fails with the resume error and leaves the handle — in particular its
lifecycle state — unchanged; when `resume` succeeds the state becomes
`Running`, and on any failure the state is never changed. -/
theorem resume_state_contract (p : Process) (os : Os)
    (hos : os.terminalConsistent p) :
    ((p.state = .Exited ∨ p.state = .Terminated) →
      (p.resume os).out = .error .resumeFailed ∧ (p.resume os).self = p) ∧
    ((p.resume os).out = .ok () → (p.resume os).self.state = .Running) ∧
    (∀ e, (p.resume os).out = .error e → (p.resume os).self = p) := by
  refine ⟨fun ht => ?_, ?_, fun e => ?_⟩
  · have h := hos ht
    simp [Process.resume, h]
  · by_cases h : os.contOk p.pid = true <;> simp [Process.resume, h]
  · by_cases h : os.contOk p.pid = true <;> simp [Process.resume, h]

/-- Witness for C8: resuming an exited controller on the dead oracle fails
and leaves the handle unchanged. -/
theorem resume_state_contract_witness :
    (procExited.resume osDead).out = .error .resumeFailed ∧
    (procExited.resume osDead).self = procExited :=
  (resume_state_contract procExited osDead (fun _ => rfl)).1 (Or.inl rfl)

/-! ### C9 — discipline of lifecycle-state updates -/

/-- C9: after every successful `wait_on_signal` the lifecycle state equals
the decoded stop reason's kind, and across all operations the state is
only ever set by the sanctioned producers: `wait_on_signal` writes exactly
the decoder's output (and leaves the handle untouched on failure),
`resume` writes exactly `Running` on success (untouched on failure),
`attach` yields the decoder's output for the post-attach trace stop, and
`launch` yields `Stopped` from construction when not tracing and the
decoder's output of the consumed trace-stop when tracing. -/
theorem state_set_discipline (p : Process) (os : Os) (pid : Int)
    (path : String) (debug : Bool) :
    (∀ r, (p.wait_on_signal os).out = .ok r →
      (p.wait_on_signal os).self.state = r.reason) ∧
    (∀ e, (p.wait_on_signal os).out = .error e → (p.wait_on_signal os).self = p) ∧
    ((p.resume os).out = .ok () → (p.resume os).self.state = .Running) ∧
    (∀ e, (p.resume os).out = .error e → (p.resume os).self = p) ∧
    (∀ q, (Process.attach pid os).1 = .ok q →
      q.state = (StopReason.new (os.waitStatus pid)).reason) ∧
    (∀ q, (Process.launch path debug os).1 = .ok q →
      q.state = if debug then (StopReason.new (os.waitStatus q.pid)).reason
        else .Stopped) := by
  refine ⟨fun r hr => ?_, fun e he => ?_, fun h => ?_, fun e he => ?_,
    fun q hq => ?_, fun q hq => ?_⟩
  · by_cases h : os.waitOk p.pid = true <;>
      simp [Process.wait_on_signal, h] at hr ⊢ <;> simp [← hr]
  · by_cases h : os.waitOk p.pid = true <;>
      simp [Process.wait_on_signal, h] at he ⊢
  · by_cases hc : os.contOk p.pid = true <;> simp [Process.resume, hc] at h ⊢
  · by_cases hc : os.contOk p.pid = true <;> simp [Process.resume, hc] at he ⊢
  · by_cases ha : os.attachOk pid = true <;>
      by_cases hw : os.waitOk pid = true <;>
      simp [Process.attach, Process.wait_on_signal, ha, hw] at hq <;>
      simp [← hq]
  · by_cases hp : os.pipeOk = true
    · cases hf : os.forkResult with
      | none => simp [Process.launch, hp, hf] at hq
      | some pid' =>
        by_cases hrd : os.readOk = true
        · cases hm : os.childMsg with
          | some m =>
            by_cases hw : os.waitOk pid' = true <;>
              simp [Process.launch, hp, hf, hrd, hm, hw] at hq
          | none =>
            cases debug with
            | false =>
              simp [Process.launch, hp, hf, hrd, hm] at hq
              simp [← hq]
            | true =>
              by_cases hw : os.waitOk pid' = true <;>
                simp [Process.launch, Process.wait_on_signal, hp, hf, hrd, hm, hw]
                  at hq <;> simp [← hq]
        · simp [Process.launch, hp, hf, hrd] at hq
    · simp [Process.launch, hp] at hq

/-- Witness for C9: the discipline theorem instantiated on the all-ok
oracle, where a successful wait writes the decoded SIGSTOP trace-stop into
the state. -/
theorem state_set_discipline_witness :
    (procStopped.wait_on_signal osAllOk).self.state =
      (StopReason.new (osAllOk.waitStatus procStopped.pid)).reason :=
  (state_set_discipline procStopped osAllOk 42 "target" true).1
    (StopReason.new (osAllOk.waitStatus procStopped.pid)) rfl

end Rdbg
